import Mathlib

/-!
Verification development for the Doc_Test_Project repository: a shallow
embedding of the `Basic_Sycl_Vector` class (basic_vector header) and of the
free functions `matrix_add` and `matrix_multiplication`
(src/Matrix_Operations/operations.h), together with theorems settling the
frozen claims about them.

Modelling conventions.

Scalars: the C++ code computes on `double`; the embedding models scalars as
exact rationals `ℚ`. Claims about IEEE-specific values (NaN, infinity) are
outside this embedding.

Parallel dispatch: every kernel in the source is submitted through
`h.parallel_for(range, body)` on an in-order result; the embedding runs the
body once per index, sequentially, which is faithful whenever the work items
of one dispatch write disjoint cells, and is the stated sequential reading
for the one-dimensional vector kernels, whose bodies all hard-code index 0
(`const int i = 0;`), so every work item of a dispatch touches the same cell.

Buffers: a one-dimensional buffer over `std::vector<double>` is the list
itself; a two-dimensional `sycl::buffer` of declared range `(R, C)` backed by
a host pointer is modelled as a total map `ℕ → ℚ` in row-major order
(`[r][c]` is cell `r * C + c`), with reads outside the backing storage
returning 0 (the C++ source makes such reads and writes undefined behaviour;
the map totalises them). Write-back into the undersized output vector
`std::vector<Scalar_type> C(N)` keeps the `N` cells the vector actually owns.
-/

/-- Model of `sycl::queue`: the device a queue is bound to. The default
constructed member queue of `Basic_Sycl_Vector` is `default_queue`; a queue
built from `sycl::gpu_selector_v` is `gpu_queue`. -/
inductive sycl_queue where
  | default_queue : sycl_queue
  | gpu_queue : sycl_queue
deriving DecidableEq

/-- State of a `Basic_Sycl_Vector` object: the selected device `Q`, the
vector size `SIZE`, and the data vector `A` (source fields of the same
names). -/
structure Basic_Sycl_Vector where
  Q : sycl_queue
  SIZE : ℕ
  A : List ℚ
deriving DecidableEq

/-- One work item of a vector kernel. Every kernel body in the source fixes
`const int i = 0;` and then reads and writes `A_access[i]`, so a single work
item applies its update `f` to element 0 of the vector and leaves the rest
alone (`List.set` on an empty list is the identity, matching the degenerate
zero-length vector). -/
def parallel_for_body (f : ℚ → ℚ) (A : List ℚ) : List ℚ :=
  A.set 0 (f (A.getD 0 0))

/-- Sequential embedding of `h.parallel_for<...>(SIZE, body)` for the vector
kernels: the body runs once per work item, `SIZE` times in all. -/
def parallel_for_seq (SIZE : ℕ) (f : ℚ → ℚ) (A : List ℚ) : List ℚ :=
  (parallel_for_body f)^[SIZE] A

namespace Basic_Sycl_Vector

/-- Constructor `Basic_Sycl_Vector(int SIZE_in)`: stores `SIZE` and pushes
`SIZE` zeros onto `A`; the member queue `Q` is default constructed. -/
def construct (SIZE_in : ℕ) : Basic_Sycl_Vector :=
  { Q := sycl_queue.default_queue, SIZE := SIZE_in, A := List.replicate SIZE_in 0 }

/-- Method `select_gpu_device`: the source builds a local queue
`sycl::queue Q{sycl::gpu_selector_v};` that shadows the member and is
discarded at once; no member is written. -/
def select_gpu_device (s : Basic_Sycl_Vector) : Basic_Sycl_Vector :=
  let Q := sycl_queue.gpu_queue
  s

/-- Method `reset`: kernel body `const int i = 0; A[i] = 0.0;` dispatched
over `SIZE` work items. The body writes element 0 of the vector through the
captured member `A` rather than through the accessor; under the sequential
host reading both denote element 0 of the same data, so the body is modelled
as setting element 0 to 0. -/
def reset (s : Basic_Sycl_Vector) : Basic_Sycl_Vector :=
  { s with A := parallel_for_seq s.SIZE (fun _ => 0) s.A }

/-- Method `add_each_element(x)`: kernel body
`const int i = 0; A_access[i] += x;` dispatched over `SIZE` work items. -/
def add_each_element (s : Basic_Sycl_Vector) (x : ℚ) : Basic_Sycl_Vector :=
  { s with A := parallel_for_seq s.SIZE (fun a => a + x) s.A }

/-- Method `subtract_each_element(x)`: kernel body
`const int i = 0; A_access[i] -= x;` dispatched over `SIZE` work items. -/
def subtract_each_element (s : Basic_Sycl_Vector) (x : ℚ) : Basic_Sycl_Vector :=
  { s with A := parallel_for_seq s.SIZE (fun a => a - x) s.A }

/-- Method `multiply_each_element(x)`: kernel body
`const int i = 0; A_access[i] *= x;` dispatched over `SIZE` work items. -/
def multiply_each_element (s : Basic_Sycl_Vector) (x : ℚ) : Basic_Sycl_Vector :=
  { s with A := parallel_for_seq s.SIZE (fun a => a * x) s.A }

/-- Method `divide_each_element(x)`: kernel body
`const int i = 0; A_access[i] /= x;` dispatched over `SIZE` work items. -/
def divide_each_element (s : Basic_Sycl_Vector) (x : ℚ) : Basic_Sycl_Vector :=
  { s with A := parallel_for_seq s.SIZE (fun a => a / x) s.A }

/-- Method `get_vector`: returns a copy of `A`. -/
def get_vector (s : Basic_Sycl_Vector) : List ℚ :=
  s.A

end Basic_Sycl_Vector

/-- Error taxonomy of the spec for matrix operations. The source signals no
error of this kind anywhere; the type is used by the spec-side checked
definition below for comparison. -/
inductive Matrix_Error where
  | DimensionMismatch : Matrix_Error
deriving DecidableEq

/-- Free function `matrix_add(Q, A, B, M, N)` of operations.h. The source
allocates the output as `std::vector<Scalar_type> C(N)` (length `N`,
zero-initialised), builds 2-D buffers of declared range `(M, N)` over `A`,
`B` and `C`, and dispatches the kernel `C_acc[idx] = A_acc[idx] + B_acc[idx]`
over the range `(M, N)`. The 2-D buffers are modelled as row-major total
maps (out-of-range reads 0, see the file header); write-back returns the `N`
cells the output vector owns. -/
def matrix_add (Q : sycl_queue) (A B : List ℚ) (M N : ℕ) : List ℚ :=
  let C0 : ℕ → ℚ := fun _ => 0
  let Cfin :=
    (List.range M).foldl
      (fun Cacc i =>
        (List.range N).foldl
          (fun Cacc j => fun c =>
            if c = i * N + j then A.getD (i * N + j) 0 + B.getD (i * N + j) 0
            else Cacc c)
          Cacc)
      C0
  (List.range N).map (fun c => Cfin c)

/-- Free function `matrix_multiplication(Q, A, B, M, N, K)` of operations.h.
The source allocates the output as `std::vector<Scalar_type> C(N)`; buffers:
`A_buf` of range `(M, N)`, `B_buf` of range `(N, K)`, `C_buf` of range
`(M, K)`. The kernel runs over range `(M, K)` with `i = idx[0]`,
`j = idx[1]` and body `for (k < N) C_acc[j][i] += A_acc[j][k] + B_acc[k][i];`
(note: accumulates a sum of sums, not products, into the transposed cell
`j * K + i`). Work items are run sequentially in row-major `(i, j)` order;
write-back returns the `N` cells the output vector owns. -/
def matrix_multiplication (Q : sycl_queue) (A B : List ℚ) (M N K : ℕ) : List ℚ :=
  let C0 : ℕ → ℚ := fun _ => 0
  let Cfin :=
    (List.range M).foldl
      (fun Cacc i =>
        (List.range K).foldl
          (fun Cacc j => fun c =>
            if c = j * K + i then
              (List.range N).foldl
                (fun acc k => acc + (A.getD (j * N + k) 0 + B.getD (k * K + i) 0))
                (Cacc (j * K + i))
            else Cacc c)
          Cacc)
      C0
  (List.range N).map (fun c => Cfin c)

/-- Follows the words of the spec, for comparison with `matrix_add`: the
lengths of `A` and `B` are validated against `M * N` before dispatch, a
mismatch fails with `DimensionMismatch`, and the result has length `M * N`
with cell `(i, j)` equal to `A[i,j] + B[i,j]`. -/
def matrix_add_spec (A B : List ℚ) (M N : ℕ) : Except Matrix_Error (List ℚ) :=
  if A.length = M * N ∧ B.length = M * N then
    Except.ok ((List.range (M * N)).map (fun c => A.getD c 0 + B.getD c 0))
  else
    Except.error Matrix_Error.DimensionMismatch

/-! Helper lemmas about the sequential dispatch of the vector kernels. -/

lemma parallel_for_body_nil (f : ℚ → ℚ) : parallel_for_body f [] = [] := rfl

lemma parallel_for_body_cons (f : ℚ → ℚ) (a : ℚ) (t : List ℚ) :
    parallel_for_body f (a :: t) = f a :: t := rfl

lemma parallel_for_seq_nil (n : ℕ) (f : ℚ → ℚ) : parallel_for_seq n f [] = [] := by
  induction n with
  | zero => rfl
  | succ m ih =>
      unfold parallel_for_seq at ih ⊢
      rw [Function.iterate_succ_apply', ih, parallel_for_body_nil]

lemma parallel_for_seq_cons (n : ℕ) (f : ℚ → ℚ) (a : ℚ) (t : List ℚ) :
    parallel_for_seq n f (a :: t) = f^[n] a :: t := by
  induction n with
  | zero => rfl
  | succ m ih =>
      unfold parallel_for_seq at ih ⊢
      rw [Function.iterate_succ_apply', ih, parallel_for_body_cons,
        ← Function.iterate_succ_apply' f]

lemma parallel_for_seq_length (n : ℕ) (f : ℚ → ℚ) (A : List ℚ) :
    (parallel_for_seq n f A).length = A.length := by
  cases A with
  | nil => rw [parallel_for_seq_nil]
  | cons a t => rw [parallel_for_seq_cons]; simp

lemma qadd_iterate (x a : ℚ) (n : ℕ) : (fun b => b + x)^[n] a = a + n * x := by
  induction n with
  | zero => simp
  | succ m ih =>
      rw [Function.iterate_succ_apply', ih]
      push_cast
      ring

lemma qsub_iterate (x a : ℚ) (n : ℕ) : (fun b => b - x)^[n] a = a - n * x := by
  induction n with
  | zero => simp
  | succ m ih =>
      rw [Function.iterate_succ_apply', ih]
      push_cast
      ring

lemma qmul_iterate (x a : ℚ) (n : ℕ) : (fun b => b * x)^[n] a = a * x ^ n := by
  induction n with
  | zero => simp
  | succ m ih =>
      rw [Function.iterate_succ_apply', ih, pow_succ, mul_assoc]

lemma qdiv_iterate (x a : ℚ) (n : ℕ) : (fun b => b / x)^[n] a = a / x ^ n := by
  induction n with
  | zero => simp
  | succ m ih =>
      rw [Function.iterate_succ_apply', ih, div_div, ← pow_succ]

/-! Claim theorems. -/

/-- Claim C1, evidence of the code defect: the spec and the source doc
comment promise that after construct(2) then add_each_element(1) every
element equals 1, i.e. get_vector() = [1, 1]; the kernel instead hard-codes
index 0 and, over the 2 work items, yields [2, 0]. -/
theorem add_each_element_eval_construct2 :
    ((Basic_Sycl_Vector.construct 2).add_each_element 1).get_vector = [2, 0]
    ∧ ((Basic_Sycl_Vector.construct 2).add_each_element 1).get_vector ≠ [1, 1] := by
  have h : ((Basic_Sycl_Vector.construct 2).add_each_element 1).get_vector = [2, 0] := by
    show parallel_for_seq 2 (fun a => a + 1) (List.replicate 2 0) = [2, 0]
    rw [show (List.replicate 2 (0 : ℚ)) = 0 :: [0] from rfl, parallel_for_seq_cons,
      qadd_iterate]
    norm_num
  refine ⟨h, ?_⟩
  rw [h]
  intro hc
  simp only [List.cons.injEq] at hc
  norm_num at hc

/-- Claim C2, evidence of the code defect: for M = N = K = 2,
A = [1, 2, 3, 4], B = [5, 6, 7, 8] the source returns [15, 17] (length
N = 2, cells accumulated from sums A[j,k] + B[k,i]), not the standard
product [19, 22, 43, 50] of length M * K = 4 that the claim states. -/
theorem matrix_multiplication_eval_2x2 :
    matrix_multiplication sycl_queue.default_queue [1, 2, 3, 4] [5, 6, 7, 8] 2 2 2 = [15, 17]
    ∧ matrix_multiplication sycl_queue.default_queue [1, 2, 3, 4] [5, 6, 7, 8] 2 2 2
        ≠ [19, 22, 43, 50] := by
  have h : matrix_multiplication sycl_queue.default_queue [1, 2, 3, 4] [5, 6, 7, 8] 2 2 2
      = [15, 17] := by
    norm_num [matrix_multiplication, show List.range 2 = [0, 1] from rfl, List.foldl]
  refine ⟨h, ?_⟩
  rw [h]
  intro hc
  simp at hc

/-- Claim C3, evidence of the code defect: for M = N = 2, A = [1, 2, 3, 4],
B = [5, 6, 7, 8] the source returns [6, 8] — the output vector is allocated
with length N = 2, so the result is the truncation of the elementwise sum
[6, 8, 10, 12] of length M * N = 4 that the claim states. -/
theorem matrix_add_eval_2x2 :
    matrix_add sycl_queue.default_queue [1, 2, 3, 4] [5, 6, 7, 8] 2 2 = [6, 8]
    ∧ matrix_add sycl_queue.default_queue [1, 2, 3, 4] [5, 6, 7, 8] 2 2 ≠ [6, 8, 10, 12] := by
  have h : matrix_add sycl_queue.default_queue [1, 2, 3, 4] [5, 6, 7, 8] 2 2 = [6, 8] := by
    norm_num [matrix_add, show List.range 2 = [0, 1] from rfl, List.foldl]
  refine ⟨h, ?_⟩
  rw [h]
  intro hc
  simp at hc

/-- Claim C4, counterexample: with M = N = 2 and inputs of length 3
(mismatched, since M * N = 4), the source matrix_add does not fail — it
returns the ordinary truncated result [2, 3] — while the validating
operation the spec describes fails with DimensionMismatch. -/
theorem matrix_add_mismatch_not_rejected :
    matrix_add sycl_queue.default_queue [1, 2, 3] [1, 1, 1] 2 2 = [2, 3]
    ∧ matrix_add_spec [1, 2, 3] [1, 1, 1] 2 2 = Except.error Matrix_Error.DimensionMismatch := by
  constructor
  · norm_num [matrix_add, show List.range 2 = [0, 1] from rfl, List.foldl]
  · rfl

/-- Claim C4, amended: neither matrix operation validates the input lengths
against the declared dimensions; every input, mismatched or not, is
dispatched and produces an ordinary result of length N (the length the
source allocates for the output vector), with no error signalled. -/
theorem matrix_ops_never_validate (q : sycl_queue) (A B : List ℚ) (M N K : ℕ) :
    (matrix_add q A B M N).length = N ∧ (matrix_multiplication q A B M N K).length = N := by
  constructor <;> simp [matrix_add, matrix_multiplication]

/-- Claim C5, evidence of the code defect: on the state with data [1, 1] the
reset kernel, whose body hard-codes index 0, leaves [0, 1] rather than the
all-zero sequence [0, 0] stated by the claim and by the source doc comment
(which says it sets all vector elements to zero). -/
theorem reset_eval_state_one_one :
    (Basic_Sycl_Vector.mk sycl_queue.default_queue 2 [1, 1]).reset.get_vector = [0, 1]
    ∧ (Basic_Sycl_Vector.mk sycl_queue.default_queue 2 [1, 1]).reset.get_vector ≠ [0, 0] := by
  constructor
  · rfl
  · intro hc
    rw [show (Basic_Sycl_Vector.mk sycl_queue.default_queue 2 [1, 1]).reset.get_vector
        = [0, 1] from rfl] at hc
    simp at hc

/-- Claim C6: the data length equals the constructed size and is preserved
by reset, add_each_element, subtract_each_element, multiply_each_element,
divide_each_element and get_vector. -/
theorem vector_length_invariant (n : ℕ) (s : Basic_Sycl_Vector) (x : ℚ) :
    (Basic_Sycl_Vector.construct n).A.length = n
    ∧ s.reset.A.length = s.A.length
    ∧ (s.add_each_element x).A.length = s.A.length
    ∧ (s.subtract_each_element x).A.length = s.A.length
    ∧ (s.multiply_each_element x).A.length = s.A.length
    ∧ (s.divide_each_element x).A.length = s.A.length
    ∧ s.get_vector.length = s.A.length := by
  refine ⟨by simp [Basic_Sycl_Vector.construct], ?_, ?_, ?_, ?_, ?_, rfl⟩ <;>
    simp [Basic_Sycl_Vector.reset, Basic_Sycl_Vector.add_each_element,
      Basic_Sycl_Vector.subtract_each_element, Basic_Sycl_Vector.multiply_each_element,
      Basic_Sycl_Vector.divide_each_element, parallel_for_seq_length]

/-- Claim C7: for every state and every scalar x, add_each_element(x)
followed by subtract_each_element(x) restores the prior data, as observed
through get_vector (exact rational arithmetic models the doubles). -/
theorem add_then_subtract_restores (s : Basic_Sycl_Vector) (x : ℚ) :
    ((s.add_each_element x).subtract_each_element x).get_vector = s.get_vector := by
  obtain ⟨q, n, A⟩ := s
  simp only [Basic_Sycl_Vector.add_each_element, Basic_Sycl_Vector.subtract_each_element,
    Basic_Sycl_Vector.get_vector]
  cases A with
  | nil => rw [parallel_for_seq_nil, parallel_for_seq_nil]
  | cons a t =>
      rw [parallel_for_seq_cons, parallel_for_seq_cons, qadd_iterate, qsub_iterate,
        add_sub_cancel_right]

/-- Claim C8: select_gpu_device leaves the instance unchanged — the selected
queue is a discarded local — so the bound queue Q, the size SIZE and the
data A are all preserved. -/
theorem select_gpu_device_noop (s : Basic_Sycl_Vector) :
    s.select_gpu_device = s
    ∧ s.select_gpu_device.Q = s.Q
    ∧ s.select_gpu_device.SIZE = s.SIZE
    ∧ s.select_gpu_device.A = s.A :=
  ⟨rfl, rfl, rfl, rfl⟩

/-- Claim C10: under the sequential embedding of the SIZE-item dispatch,
each scalar kernel applies its operation SIZE times to element 0 — after
add_each_element(x) element 0 equals its prior value plus SIZE * x, after
subtract_each_element(x) minus SIZE * x, after multiply_each_element(x)
times x to the SIZE, after divide_each_element(x) divided by x to the SIZE —
and every element at a nonzero index i + 1 is unchanged. -/
theorem scalar_kernels_update_index_zero_only (s : Basic_Sycl_Vector) (x : ℚ) (i : ℕ) :
    (((s.add_each_element x).A)[i + 1]? = (s.A)[i + 1]?
      ∧ ((s.subtract_each_element x).A)[i + 1]? = (s.A)[i + 1]?
      ∧ ((s.multiply_each_element x).A)[i + 1]? = (s.A)[i + 1]?
      ∧ ((s.divide_each_element x).A)[i + 1]? = (s.A)[i + 1]?)
    ∧ (((s.add_each_element x).A)[0]? = ((s.A)[0]?).map (fun a => a + s.SIZE * x)
      ∧ ((s.subtract_each_element x).A)[0]? = ((s.A)[0]?).map (fun a => a - s.SIZE * x)
      ∧ ((s.multiply_each_element x).A)[0]? = ((s.A)[0]?).map (fun a => a * x ^ s.SIZE)
      ∧ ((s.divide_each_element x).A)[0]? = ((s.A)[0]?).map (fun a => a / x ^ s.SIZE)) := by
  obtain ⟨q, n, A⟩ := s
  simp only [Basic_Sycl_Vector.add_each_element, Basic_Sycl_Vector.subtract_each_element,
    Basic_Sycl_Vector.multiply_each_element, Basic_Sycl_Vector.divide_each_element]
  cases A with
  | nil => simp [parallel_for_seq_nil]
  | cons a t =>
      simp [parallel_for_seq_cons, qadd_iterate, qsub_iterate, qmul_iterate, qdiv_iterate]
